import Mathlib

/-
Verification of the composable-allocator library (namespace gregjm).

The C++ sources are shallowly embedded as follows.

Machine integers: every counter in the source is std.size_t, modelled as a
Nat reduced modulo 2 ^ 64 wherever the source performs size_t arithmetic
(addW, subW below).  Pointers are modelled as Nat byte addresses; pointer
arithmetic stays in plain Nat because a pointer in a defined execution never
wraps, while the size_t counters can and do wrap (which is exactly where one
of the bugs lives).

Heap memory: malloc, realloc and the backing allocator cannot be executed,
so each call site takes the system result as an explicit oracle argument
(Option Nat: none models a null return, some a models a returned address).
The bytes stored in memory are not modelled; no claim below depends on
memory contents, only on block identity, registries and counters.

Exceptions: a C++ function that can throw is modelled as returning
Except AllocError; composite allocators that mutate children before a throw
return the mutated child states next to the error, matching the fact that
side effects performed before a C++ throw persist.
-/

namespace PolyAlloc

/-- Modulus of std.size_t arithmetic on a 64-bit target. -/
def W : Nat := 2 ^ 64

/-- size_t addition, wrapping. -/
def addW (a b : Nat) : Nat := (a + b) % W

/-- size_t subtraction, wrapping: a - b computed modulo 2 ^ 64.
Assumes both inputs are already reduced below W, as all stored counters are. -/
def subW (a b : Nat) : Nat := (a + (W - b % W)) % W

/-- The two error kinds of the library: BadAllocationException and
NotOwnedException from polymorphic_allocator.hpp. -/
inductive AllocError where
  | outOfMemory
  | notOwned
deriving DecidableEq

/-- struct MemoryBlock of polymorphic_allocator.hpp: a raw address and a
size.  operator== compares both fields, which DecidableEq mirrors. -/
structure MemoryBlock where
  memory : Nat
  size : Nat
deriving DecidableEq

namespace StackAllocator

/-- State of StackAllocator (stack_allocator.hpp, include revision):
base models memory_.data(), capacity the template parameter N,
sp the field stack_pointer_, allocated the field allocated_, and
maxSize the field max_size_. -/
structure StackState where
  base : Nat
  capacity : Nat
  sp : Nat
  allocated : Nat
  maxSize : Nat
deriving DecidableEq

/-- A freshly constructed StackAllocator of capacity n whose buffer sits at
address base: stack_pointer_ = begin(), allocated_ = 0, max_size_ = N. -/
def init (base n : Nat) : StackState :=
  ⟨base, n, base, 0, n⟩

/-- StackAllocator.aligned_offset: the padding the source computes from a
value and an alignment. -/
def aligned_offset (size alignment : Nat) : Nat :=
  let modulo := size % alignment
  if modulo = 0 then 0 else alignment - modulo

/-- StackAllocator.align_top: advance stack_pointer_ to the alignment and
charge the padding to max_size_. -/
def align_top (st : StackState) (alignment : Nat) : StackState :=
  let off := aligned_offset st.sp alignment
  { st with maxSize := subW st.maxSize off, sp := st.sp + off }

/-- StackAllocator.push: advance stack_pointer_ by size and subtract size
from max_size_ (size_t subtraction, so it can wrap: push performs no
capacity check). -/
def push (st : StackState) (size : Nat) : StackState :=
  { st with maxSize := subW st.maxSize size, sp := st.sp + size }

/-- StackAllocator.pop: move stack_pointer_ back by size and credit size to
max_size_. -/
def pop (st : StackState) (size : Nat) : StackState :=
  { st with maxSize := addW st.maxSize size, sp := st.sp - size }

/-- StackAllocator.max_size_locked: returns max_size_. -/
def max_size_locked (st : StackState) : Nat := st.maxSize

/-- StackAllocator.owns_locked: block.memory >= begin() and
block.memory < stack_pointer_.  Only the address is inspected. -/
def owns_locked (st : StackState) (b : MemoryBlock) : Bool :=
  decide (st.base ≤ b.memory) && decide (b.memory < st.sp)

/-- StackAllocator.allocate_locked: reject when
size + aligned_offset(size, alignment) exceeds max_size_locked() (note the
source passes size, not the stack pointer, to aligned_offset here), else
align the top, hand out the block at the aligned top, push size and count
the allocation. -/
def allocate_locked (st : StackState) (size alignment : Nat) :
    Except AllocError (MemoryBlock × StackState) :=
  if max_size_locked st < addW size (aligned_offset size alignment) then
    .error .outOfMemory
  else
    let st1 := align_top st alignment
    let block : MemoryBlock := ⟨st1.sp, size⟩
    let st2 := push st1 size
    .ok (block, { st2 with allocated := addW st2.allocated 1 })

/-- StackAllocator.deallocate_locked: throw NotOwned unless owns_locked,
pop only when the block ends exactly at stack_pointer_, decrement
allocated_, and reset the arena once allocated_ reaches zero. -/
def deallocate_locked (st : StackState) (b : MemoryBlock) :
    Except AllocError StackState :=
  if owns_locked st b then
    let st1 := if b.memory + b.size = st.sp then pop st b.size else st
    let st2 := { st1 with allocated := subW st1.allocated 1 }
    if st2.allocated = 0 then
      .ok { st2 with sp := st2.base, maxSize := st2.capacity }
    else
      .ok st2
  else
    .error .notOwned

/-- StackAllocator.reallocate_impl: throw NotOwned unless owned; when the
block ends exactly at stack_pointer_, pop the shrink or push the grow in
place (push performs no capacity check); otherwise allocate fresh, copy
min(size, block.size) bytes (contents not modelled) and deallocate the old
block. -/
def reallocate_impl (st : StackState) (b : MemoryBlock) (size alignment : Nat) :
    Except AllocError (MemoryBlock × StackState) :=
  if owns_locked st b then
    if b.memory + b.size = st.sp then
      let reallocBlock : MemoryBlock := ⟨b.memory, size⟩
      let st1 := if size < b.size then pop st (b.size - size)
                 else push st (size - b.size)
      .ok (reallocBlock, st1)
    else
      match allocate_locked st size alignment with
      | .error e => .error e
      | .ok (reallocBlock, st1) =>
        match deallocate_locked st1 b with
        | .error e => .error e
        | .ok st2 => .ok (reallocBlock, st2)
  else
    .error .notOwned

/-- StackAllocator.deallocate_all_impl: only stack_pointer_ = begin();
neither allocated_ nor max_size_ is touched by the source. -/
def deallocate_all_impl (st : StackState) : StackState :=
  { st with sp := st.base }

end StackAllocator

namespace GlobalAllocator

/-- The registry blocks_ (an unordered_set of MemoryBlock) is modelled as a
duplicate-free list; insertion and erasure use MemoryBlock equality, which
compares address and size. -/
def regInsert (b : MemoryBlock) (st : List MemoryBlock) : List MemoryBlock :=
  if b ∈ st then st else b :: st

/-- unordered_set erase of one block value. -/
def regErase (b : MemoryBlock) (st : List MemoryBlock) : List MemoryBlock :=
  st.filter (fun x => x ≠ b)

/-- GlobalAllocator.owns_impl: blocks_.count(block), i.e. registry
membership under both-field equality. -/
def owns_impl (st : List MemoryBlock) (b : MemoryBlock) : Bool :=
  decide (b ∈ st)

/-- GlobalAllocator.allocate_impl: call malloc(size) (oracle argument; the
alignment parameter is unnamed and unused in the source), throw OutOfMemory
on null, else insert the block into the registry and return it. -/
def allocate_impl (st : List MemoryBlock) (size _alignment : Nat)
    (mallocResult : Option Nat) :
    Except AllocError (MemoryBlock × List MemoryBlock) :=
  match mallocResult with
  | none => .error .outOfMemory
  | some addr =>
    let block : MemoryBlock := ⟨addr, size⟩
    .ok (block, regInsert block st)

/-- GlobalAllocator.reallocate_impl: throw NotOwned unless registered, call
realloc (oracle argument), throw OutOfMemory on null leaving the registry
unchanged; otherwise erase the old block, insert the realloc block, and
return.  The source returns the variable block (the old block), not
realloc_block. -/
def reallocate_impl (st : List MemoryBlock) (b : MemoryBlock) (size : Nat)
    (reallocResult : Option Nat) :
    Except AllocError (MemoryBlock × List MemoryBlock) :=
  if b ∈ st then
    match reallocResult with
    | none => .error .outOfMemory
    | some addr =>
      let reallocBlock : MemoryBlock := ⟨addr, size⟩
      .ok (b, regInsert reallocBlock (regErase b st))
  else
    .error .notOwned

/-- GlobalAllocator.deallocate_locked: erase from the registry, throwing
NotOwned when the erase removed nothing; free(block.memory) is called only
after a successful erase, so the error path frees nothing. -/
def deallocate_locked (st : List MemoryBlock) (b : MemoryBlock) :
    Except AllocError (List MemoryBlock) :=
  if b ∈ st then
    .ok (regErase b st)
  else
    .error .notOwned

end GlobalAllocator

namespace FallbackAllocator

/-- A child allocator instrumented for the consultation-count property of
the spec: behavior maps the index of a call to the outcome of that call
(a block, or a thrown error), and calls counts how many allocate calls the
child has received.  The instrumentation is exactly what the spec proposes
(observable by instrumenting both children). -/
structure ChildModel where
  behavior : Nat → Except AllocError MemoryBlock
  calls : Nat

/-- One allocate call against an instrumented child: produce the scripted
outcome and bump the call count. -/
def ChildModel.step (c : ChildModel) :
    Except AllocError MemoryBlock × ChildModel :=
  (c.behavior c.calls, { c with calls := c.calls + 1 })

/-- FallbackAllocator.allocate_impl (fallback_allocator.hpp): call
primary().allocate inside a try block; a BadAllocationException from the
primary is caught and answered by one secondary().allocate call whose
outcome (block or thrown error) is returned; any other exception, in
particular NotOwnedException, propagates without consulting the secondary. -/
def allocate_impl (p s : ChildModel) :
    Except AllocError MemoryBlock × ChildModel × ChildModel :=
  match ChildModel.step p with
  | (.ok b, p1) => (.ok b, p1, s)
  | (.error .outOfMemory, p1) =>
    match ChildModel.step s with
    | (rs, s1) => (rs, p1, s1)
  | (.error .notOwned, p1) => (.error .notOwned, p1, s)

end FallbackAllocator

namespace SegregatingAllocator

/-- SegregatingAllocator.reallocate_from_big (segregating_allocator.hpp),
instantiated with two GlobalAllocator children so that every child
operation is the registry model above.  Cross-bucket case (size <= N):
allocate the new block from little() (mallocResult is the oracle for the
system allocation the little child performs), copy size bytes (contents not
modelled), then deallocate the old block — the source passes it to
little().deallocate, not big().deallocate.  Same-bucket case: forward to
big().reallocate, for which mallocResult doubles as the realloc oracle.
A thrown error is returned next to the child registries as mutated so far,
matching C++ side effects that persist across a throw. -/
def reallocate_from_big (N : Nat) (little big : List MemoryBlock)
    (b : MemoryBlock) (size alignment : Nat) (mallocResult : Option Nat) :
    Except AllocError MemoryBlock × List MemoryBlock × List MemoryBlock :=
  if size ≤ N then
    match GlobalAllocator.allocate_impl little size alignment mallocResult with
    | .error e => (.error e, little, big)
    | .ok (newBlock, little1) =>
      match GlobalAllocator.deallocate_locked little1 b with
      | .error e => (.error e, little1, big)
      | .ok little2 => (.ok newBlock, little2, big)
  else
    match GlobalAllocator.reallocate_impl big b size mallocResult with
    | .error e => (.error e, little, big)
    | .ok (reallocBlock, big1) => (.ok reallocBlock, little, big1)

end SegregatingAllocator

namespace PoolAllocator

open StackAllocator

/-- pools_ is a vector of owning pointers to StackAllocator of capacity
PoolSize; each element is modelled by the pool state it points to.  Vector
indexing out of range never happens in the modelled paths; getPool totals
it with a dummy pool. -/
def getPool (pools : List StackState) (i : Nat) : StackState :=
  pools.getD i (init 0 0)

/-- std.swap of the owning pointers at two vector positions. -/
def swapAt (pools : List StackState) (i j : Nat) : List StackState :=
  (pools.set i (getPool pools j)).set j (getPool pools i)

/-- Parent index exactly as the source computes it:
element - (element - begin + 2) / 2. -/
def parentIdx (i : Nat) : Nat := i - (i + 2) / 2

/-- Loop body of PoolAllocator.fix_down: size is the max_size of the moved
element, captured once at entry as in the source; descend to the
larger-capacity child while it strictly beats size.  The fuel argument
bounds the loop by the vector length, which the descent can never exceed. -/
def fix_down_go (size : Nat) (pools : List StackState) (i fuel : Nat) :
    List StackState :=
  match fuel with
  | 0 => pools
  | fuel + 1 =>
    let n := pools.length
    let l := 2 * i + 1
    let r := 2 * i + 2
    if r < n then
      if max_size_locked (getPool pools l) < max_size_locked (getPool pools r)
      then
        if max_size_locked (getPool pools r) ≤ size then pools
        else fix_down_go size (swapAt pools i r) r fuel
      else
        if max_size_locked (getPool pools l) ≤ size then pools
        else fix_down_go size (swapAt pools i l) l fuel
    else if l < n then
      if max_size_locked (getPool pools l) ≤ size then pools
      else fix_down_go size (swapAt pools i l) l fuel
    else pools

/-- PoolAllocator.fix_down: sift the front element down (the source assumes
a nonempty vector). -/
def fix_down (pools : List StackState) : List StackState :=
  match pools with
  | [] => pools
  | p :: _ => fix_down_go (max_size_locked p) pools 0 pools.length

/-- Loop body of PoolAllocator.fix_up: size is the max_size of the moved
element, captured once at entry; ascend while the parent has strictly
smaller max_size. -/
def fix_up_go (size : Nat) (pools : List StackState) (i fuel : Nat) :
    List StackState :=
  match fuel with
  | 0 => pools
  | fuel + 1 =>
    if i = 0 then pools
    else
      let p := parentIdx i
      if max_size_locked (getPool pools p) < size then
        fix_up_go size (swapAt pools i p) p fuel
      else pools

/-- PoolAllocator.fix_up at a vector position. -/
def fix_up (pools : List StackState) (i : Nat) : List StackState :=
  fix_up_go (max_size_locked (getPool pools i)) pools i pools.length

/-- std.push_heap with the PoolAllocatorComparator (max_size ordering)
performs the same sift-up on the last element as fix_up. -/
def push_heap (pools : List StackState) : List StackState :=
  fix_up pools (pools.length - 1)

/-- PoolAllocator.allocate_new: obtain memory for a fresh pool from the
backing allocator (modelled as succeeding, placing the new pool buffer at
newBase), placement-construct the pool, allocate out of it (an OutOfMemory
from this allocation propagates), append it to the vector and push_heap. -/
def allocate_new (poolSize : Nat) (pools : List StackState) (newBase : Nat)
    (size alignment : Nat) :
    Except AllocError (MemoryBlock × List StackState) :=
  match allocate_locked (init newBase poolSize) size alignment with
  | .error e => .error e
  | .ok (b, pool) => .ok (b, push_heap (pools ++ [pool]))

/-- PoolAllocator.allocate_impl: reject sizes above PoolSize; with no pools
yet, allocate from a fresh pool; otherwise try the front (largest-capacity)
pool and fix_down on success, while a BadAllocationException from the front
pool is caught and answered from a fresh pool. -/
def allocate_impl (poolSize : Nat) (pools : List StackState) (newBase : Nat)
    (size alignment : Nat) :
    Except AllocError (MemoryBlock × List StackState) :=
  if poolSize < size then .error .outOfMemory
  else
    match pools with
    | [] => allocate_new poolSize pools newBase size alignment
    | front :: rest =>
      match allocate_locked front size alignment with
      | .ok (b, front1) => .ok (b, fix_down (front1 :: rest))
      | .error _ => allocate_new poolSize pools newBase size alignment

/-- PoolAllocator.get_owner_iter: linear scan for the first pool owning the
block, as an index into the vector. -/
def get_owner_idx (pools : List StackState) (b : MemoryBlock) : Option Nat :=
  pools.findIdx? (fun p => owns_locked p b)

/-- PoolAllocator.deallocate_impl: NotOwned when no pool owns the block,
else deallocate from the owner and fix_up its heap position. -/
def deallocate_impl (pools : List StackState) (b : MemoryBlock) :
    Except AllocError (List StackState) :=
  match get_owner_idx pools b with
  | none => .error .notOwned
  | some i =>
    match deallocate_locked (getPool pools i) b with
    | .error e => .error e
    | .ok p1 => .ok (fix_up (pools.set i p1) i)

/-- PoolAllocator.reallocate_impl: locate the owner; on a successful child
reallocate, return its block with no heap fix at all (the source returns
straight out of the try block); a NotOwnedException from the child
propagates.  On a BadAllocationException, allocate a fresh block through
allocate (which may append a new pool and reorder the heap), copy (contents
not modelled), deallocate the old block from the owner object wherever the
reordering left it, and fix_up at the original iterator position i, which
is what the saved owner_iter designates (assuming the vector kept its
storage, since growth would invalidate the saved iterator). -/
def reallocate_impl (poolSize : Nat) (pools : List StackState) (newBase : Nat)
    (b : MemoryBlock) (size alignment : Nat) :
    Except AllocError (MemoryBlock × List StackState) :=
  match get_owner_idx pools b with
  | none => .error .notOwned
  | some i =>
    match StackAllocator.reallocate_impl (getPool pools i) b size alignment with
    | .ok (nb, p1) => .ok (nb, pools.set i p1)
    | .error .notOwned => .error .notOwned
    | .error .outOfMemory =>
      match allocate_impl poolSize pools newBase size alignment with
      | .error e => .error e
      | .ok (nb, pools1) =>
        match get_owner_idx pools1 b with
        | none => .error .notOwned
        | some j =>
          match deallocate_locked (getPool pools1 j) b with
          | .error e => .error e
          | .ok p1 => .ok (nb, fix_up (pools1.set j p1) i)

/-- PoolAllocator.deallocate_all_impl: deallocate_all on every pool. -/
def deallocate_all_impl (pools : List StackState) : List StackState :=
  pools.map StackAllocator.deallocate_all_impl

end PoolAllocator

/-- C1: the claim says GlobalAllocator.reallocate on a registered block with
a successful system realloc removes the old block from the registry, inserts
the new one, and returns the new block, so that owns of the returned block
is true and its size is the requested size.  The registry is indeed updated,
but the source returns the old block (return block instead of
realloc_block): at registry containing only the block at address 100 of
size 16, reallocating to size 32 with realloc returning address 200 yields
the stale block of address 100 and size 16, which the allocator no longer
owns and whose size is not 32. -/
theorem c1_global_reallocate_returns_stale_block :
    GlobalAllocator.reallocate_impl [⟨100, 16⟩] ⟨100, 16⟩ 32 (some 200)
      = .ok (⟨100, 16⟩, [⟨200, 32⟩])
    ∧ GlobalAllocator.owns_impl [⟨200, 32⟩] ⟨100, 16⟩ = false
    ∧ (⟨100, 16⟩ : MemoryBlock).size ≠ 32 :=
  ⟨rfl, rfl, by decide⟩

/-- C2: the claim says a big-to-little cross-bucket reallocation allocates
from the little child, copies, and deallocates the original block from the
big child, with the big child raising no error.  The source instead passes
the original block to the little child: with threshold 64, an empty little
registry and a big registry owning the block at address 1000 of size 128,
reallocating that block to size 32 raises NotOwned (thrown by the little
child) and leaves the big child still owning the original block, with the
fresh little allocation leaked in the little registry. -/
theorem c2_segregating_cross_bucket_deallocates_wrong_child :
    SegregatingAllocator.reallocate_from_big 64 [] [⟨1000, 128⟩]
        ⟨1000, 128⟩ 32 8 (some 2000)
      = (.error .notOwned, [⟨2000, 32⟩], [⟨1000, 128⟩])
    ∧ GlobalAllocator.owns_impl [⟨1000, 128⟩] ⟨1000, 128⟩ = true :=
  ⟨rfl, rfl⟩

/-- C3: the claim says growing the topmost block in place fails with
OutOfMemory when the growth exceeds the remaining capacity, leaving the
state unchanged.  The source pushes unconditionally: on a 16-byte arena at
base 64 holding one 12-byte block (4 bytes remaining), reallocating that
block to 20 bytes needs 8 more than remain, yet the call succeeds, the
size_t remaining count wraps to 2 ^ 64 - 4, and the top pointer lands at
84, past the end of the buffer at 80. -/
theorem c3_stack_grow_in_place_skips_capacity_check :
    StackAllocator.allocate_locked (StackAllocator.init 64 16) 12 1
      = .ok (⟨64, 12⟩, ⟨64, 16, 76, 1, 4⟩)
    ∧ StackAllocator.max_size_locked ⟨64, 16, 76, 1, 4⟩ < 20 - 12
    ∧ StackAllocator.reallocate_impl ⟨64, 16, 76, 1, 4⟩ ⟨64, 12⟩ 20 1
      = .ok (⟨64, 20⟩, ⟨64, 16, 84, 1, 2 ^ 64 - 4⟩)
    ∧ 64 + 16 < 84 :=
  ⟨rfl, by decide, rfl, by decide⟩

/-- C4: the claim says allocate fails exactly when the requested size plus
the padding needed to align the current top pointer exceeds the remaining
count.  The rejection test of the source computes the padding from the
request size rather than from the top pointer: on a fresh 1-byte arena
whose 64-aligned base needs no padding for alignment 8, allocate of 1 byte
aligned to 8 should succeed by the claim (1 + 0 <= 1 remaining), yet the
source rejects it with OutOfMemory because 1 + aligned_offset(1, 8) = 8
exceeds 1. -/
theorem c4_stack_allocate_padding_check_uses_size :
    StackAllocator.allocate_locked (StackAllocator.init 64 1) 1 8
      = .error .outOfMemory
    ∧ 1 + StackAllocator.aligned_offset (StackAllocator.init 64 1).sp 8
        ≤ StackAllocator.max_size_locked (StackAllocator.init 64 1) :=
  ⟨rfl, by decide⟩

/-- C5: the claim says the live count is zero exactly when the top pointer
sits at the base, and that deallocate_all restores a fresh allocator.  The
source resets only the stack pointer in deallocate_all: on a 16-byte arena
at base 64, after one 8-byte allocation followed by deallocate_all, the top
pointer is back at the base while the live count is still 1 and max_size is
still 8 rather than 16 — a reachable state falsifying both the equivalence
and freshness. -/
theorem c5_stack_deallocate_all_leaves_stale_counters :
    StackAllocator.allocate_locked (StackAllocator.init 64 16) 8 1
      = .ok (⟨64, 8⟩, ⟨64, 16, 72, 1, 8⟩)
    ∧ StackAllocator.deallocate_all_impl ⟨64, 16, 72, 1, 8⟩ = ⟨64, 16, 64, 1, 8⟩
    ∧ (⟨64, 16, 64, 1, 8⟩ : StackAllocator.StackState).sp
        = (⟨64, 16, 64, 1, 8⟩ : StackAllocator.StackState).base
    ∧ (⟨64, 16, 64, 1, 8⟩ : StackAllocator.StackState).allocated ≠ 0
    ∧ StackAllocator.max_size_locked ⟨64, 16, 64, 1, 8⟩ ≠ 16 :=
  ⟨rfl, rfl, rfl, by decide, by decide⟩

/-- C6: the claim says that after every completed pool operation the root
pool has the greatest remaining capacity.  A successful in-place child
reallocation performs no heap fix: with PoolSize 1024, allocate 100 then
900 (filling pool one to 24 remaining), allocate 900 (spawning pool two at
the root with 124 remaining), then grow the 900-byte block in place to
1005; the root pool ends with 19 remaining while the other pool still has
24, so the root is no longer maximal. -/
theorem c6_pool_root_not_max_after_in_place_reallocate :
    PoolAllocator.allocate_impl 1024 [] 4096 100 1
      = .ok (⟨4096, 100⟩, [⟨4096, 1024, 4196, 1, 924⟩])
    ∧ PoolAllocator.allocate_impl 1024 [⟨4096, 1024, 4196, 1, 924⟩] 8192 900 1
      = .ok (⟨4196, 900⟩, [⟨4096, 1024, 5096, 2, 24⟩])
    ∧ PoolAllocator.allocate_impl 1024 [⟨4096, 1024, 5096, 2, 24⟩] 8192 900 1
      = .ok (⟨8192, 900⟩,
             [⟨8192, 1024, 9092, 1, 124⟩, ⟨4096, 1024, 5096, 2, 24⟩])
    ∧ PoolAllocator.reallocate_impl 1024
        [⟨8192, 1024, 9092, 1, 124⟩, ⟨4096, 1024, 5096, 2, 24⟩] 16384
        ⟨8192, 900⟩ 1005 1
      = .ok (⟨8192, 1005⟩,
             [⟨8192, 1024, 9197, 1, 19⟩, ⟨4096, 1024, 5096, 2, 24⟩])
    ∧ StackAllocator.max_size_locked
        (PoolAllocator.getPool
          [⟨8192, 1024, 9197, 1, 19⟩, ⟨4096, 1024, 5096, 2, 24⟩] 0)
      < StackAllocator.max_size_locked
        (PoolAllocator.getPool
          [⟨8192, 1024, 9197, 1, 19⟩, ⟨4096, 1024, 5096, 2, 24⟩] 1) :=
  ⟨rfl, rfl, rfl, rfl, by decide⟩

/-- C7 counterexample: the claim says any fabricated block, regardless of
address and size, is rejected with NotOwned leaving the stack state
unchanged.  On a 16-byte arena at base 64 whose only handed-out block is
the 8-byte block at 64, the fabricated block at address 65 of size 999 was
never produced, yet deallocate accepts it (ownership checks the address
only), drops the live count to zero and resets the arena, so the genuinely
live block is no longer owned afterwards. -/
theorem c7_fabricated_in_range_block_accepted :
    StackAllocator.allocate_locked (StackAllocator.init 64 16) 8 1
      = .ok (⟨64, 8⟩, ⟨64, 16, 72, 1, 8⟩)
    ∧ (⟨65, 999⟩ : MemoryBlock) ≠ ⟨64, 8⟩
    ∧ StackAllocator.deallocate_locked ⟨64, 16, 72, 1, 8⟩ ⟨65, 999⟩
      = .ok ⟨64, 16, 64, 0, 16⟩
    ∧ StackAllocator.owns_locked ⟨64, 16, 64, 0, 16⟩ ⟨64, 8⟩ = false :=
  ⟨rfl, by decide, rfl, rfl⟩

/-- C7 (amended): a fabricated block is rejected by StackAllocator with
NotOwned, and nothing is freed, exactly when its address lies outside the
live region from the buffer base up to the top pointer; a fabricated block
whose address falls inside that region is accepted whatever its size. -/
theorem c7_stack_deallocate_outside_range_not_owned
    (st : StackAllocator.StackState) (b : MemoryBlock)
    (h : b.memory < st.base ∨ st.sp ≤ b.memory) :
    StackAllocator.deallocate_locked st b = .error .notOwned := by
  have hcond : ¬(st.base ≤ b.memory ∧ b.memory < st.sp) := by omega
  simp [StackAllocator.deallocate_locked, StackAllocator.owns_locked, hcond]

/-- C7 witness: on a fresh 16-byte arena at base 64, deallocating the
fabricated block at address 10 signals NotOwned. -/
theorem c7_stack_deallocate_outside_range_not_owned_witness :
    StackAllocator.deallocate_locked (StackAllocator.init 64 16) ⟨10, 5⟩
      = .error .notOwned :=
  c7_stack_deallocate_outside_range_not_owned
    (StackAllocator.init 64 16) ⟨10, 5⟩ (Or.inl (by decide))

/-- C8 counterexample: the claim extends the alignment guarantee to
GlobalAllocator for every power-of-two alignment.  GlobalAllocator passes
nothing about the alignment to malloc (the parameter is unnamed in the
source), so the address is whatever malloc yields: with malloc returning
address 16 — a legitimate, fundamentally aligned system address — an
allocate of 4 bytes with the power-of-two alignment 32 succeeds, yet the
returned address 16 is not a multiple of 32. -/
theorem c8_global_allocate_ignores_alignment :
    GlobalAllocator.allocate_impl [] 4 32 (some 16)
      = .ok (⟨16, 4⟩, [⟨16, 4⟩])
    ∧ 16 % 32 ≠ 0 :=
  ⟨rfl, by decide⟩

/-- Helper for C8: adding the padding aligned_offset computes for a value
makes the sum a multiple of the alignment. -/
theorem aligned_offset_mod (x a : Nat) (ha : 0 < a) :
    (x + StackAllocator.aligned_offset x a) % a = 0 := by
  unfold StackAllocator.aligned_offset
  by_cases h : x % a = 0
  · simp [h]
  · have hm : x % a < a := Nat.mod_lt _ ha
    simp only [h, if_false]
    conv_lhs => rw [Nat.add_mod]
    have h1 : (a - x % a) % a = a - x % a := Nat.mod_eq_of_lt (by omega)
    rw [h1]
    have h2 : x % a + (a - x % a) = a := by omega
    rw [h2, Nat.mod_self]

/-- C8 (amended): every successful allocate returns a block whose size
field is exactly the requested size; the returned address is a multiple of
the requested power-of-two alignment for StackAllocator, whose allocate
aligns the top pointer, while GlobalAllocator only guarantees the exact
size, its address being whatever malloc returned. -/
theorem c8_allocate_exact_size_and_stack_alignment
    (st st2 : StackAllocator.StackState) (size alignment : Nat)
    (b : MemoryBlock) (g g2 : List MemoryBlock)
    (gsize galign addr : Nat) (gb : MemoryBlock)
    (hpow : ∃ k, alignment = 2 ^ k)
    (hs : StackAllocator.allocate_locked st size alignment = .ok (b, st2))
    (hg : GlobalAllocator.allocate_impl g gsize galign (some addr)
            = .ok (gb, g2)) :
    b.size = size ∧ b.memory % alignment = 0 ∧ gb.size = gsize := by
  obtain ⟨k, rfl⟩ := hpow
  have ha : 0 < 2 ^ k := Nat.pos_pow_of_pos k (by omega)
  unfold StackAllocator.allocate_locked at hs
  split at hs
  · exact absurd hs (by simp)
  · simp only [Except.ok.injEq, Prod.mk.injEq] at hs
    obtain ⟨hb, -⟩ := hs
    subst hb
    refine ⟨rfl, ?_, ?_⟩
    · exact aligned_offset_mod st.sp (2 ^ k) ha
    · unfold GlobalAllocator.allocate_impl at hg
      simp only [Except.ok.injEq, Prod.mk.injEq] at hg
      obtain ⟨hgb, -⟩ := hg
      subst hgb
      rfl

/-- C8 witness: on a fresh 16-byte arena at base 64, allocating 8 bytes
with alignment 8 yields the block at address 64 with size field 8 and
64 is a multiple of 8; a GlobalAllocator whose malloc returned address 16
for a 4-byte request yields size field 4. -/
theorem c8_allocate_exact_size_and_stack_alignment_witness :
    (⟨64, 8⟩ : MemoryBlock).size = 8
    ∧ (⟨64, 8⟩ : MemoryBlock).memory % 8 = 0
    ∧ (⟨16, 4⟩ : MemoryBlock).size = 4 :=
  c8_allocate_exact_size_and_stack_alignment
    (StackAllocator.init 64 16) ⟨64, 16, 72, 1, 8⟩ 8 8 ⟨64, 8⟩
    [] [⟨16, 4⟩] 4 32 16 ⟨16, 4⟩ ⟨3, rfl⟩ rfl rfl

/-- C9: FallbackAllocator.allocate consults the primary exactly once; when
the primary yields a block, that block is returned and the secondary is not
consulted; when the primary throws OutOfMemory, the secondary is consulted
exactly once and its outcome, block or failure, is the outcome of the call;
when the primary throws NotOwned, that error propagates and the secondary
is not consulted. -/
theorem c9_fallback_allocate_consultation (p s : FallbackAllocator.ChildModel) :
    (FallbackAllocator.allocate_impl p s).2.1.calls = p.calls + 1
    ∧ (∀ b, p.behavior p.calls = .ok b →
        (FallbackAllocator.allocate_impl p s).1 = .ok b
        ∧ (FallbackAllocator.allocate_impl p s).2.2 = s)
    ∧ (p.behavior p.calls = .error .outOfMemory →
        (FallbackAllocator.allocate_impl p s).1 = s.behavior s.calls
        ∧ (FallbackAllocator.allocate_impl p s).2.2.calls = s.calls + 1)
    ∧ (p.behavior p.calls = .error .notOwned →
        (FallbackAllocator.allocate_impl p s).1 = .error .notOwned
        ∧ (FallbackAllocator.allocate_impl p s).2.2 = s) := by
  cases h : p.behavior p.calls with
  | ok b =>
    simp [FallbackAllocator.allocate_impl, FallbackAllocator.ChildModel.step, h]
  | error e =>
    cases e <;>
      simp [FallbackAllocator.allocate_impl, FallbackAllocator.ChildModel.step, h]

/-- C9 witness: with a primary scripted to throw OutOfMemory and a
secondary scripted to yield the block at address 500 of size 4, the call
returns the secondary block and the secondary call count rises to 1. -/
theorem c9_fallback_allocate_consultation_witness :
    (FallbackAllocator.allocate_impl
        ⟨fun _ => .error .outOfMemory, 0⟩ ⟨fun _ => .ok ⟨500, 4⟩, 0⟩).1
      = .ok ⟨500, 4⟩
    ∧ (FallbackAllocator.allocate_impl
        ⟨fun _ => .error .outOfMemory, 0⟩ ⟨fun _ => .ok ⟨500, 4⟩, 0⟩).2.2.calls
      = 0 + 1 := by
  have h := c9_fallback_allocate_consultation
    ⟨fun _ => .error .outOfMemory, 0⟩ ⟨fun _ => .ok ⟨500, 4⟩, 0⟩
  exact ⟨(h.2.2.1 rfl).1, (h.2.2.1 rfl).2⟩

/-- C10: GlobalAllocator block identity compares address and size: when the
registry holds a live block at address a of size s1, and no registered
block equals the probe of address a and different size s2, owns of the
probe is false, deallocate of the probe signals NotOwned (the registry is
untouched and free is never reached on that path), and the live block is
still owned. -/
theorem c10_global_block_identity_both_fields
    (st : List MemoryBlock) (a s1 s2 : Nat)
    (hlive : MemoryBlock.mk a s1 ∈ st) (_hne : s2 ≠ s1)
    (hnot : MemoryBlock.mk a s2 ∉ st) :
    GlobalAllocator.owns_impl st ⟨a, s2⟩ = false
    ∧ GlobalAllocator.deallocate_locked st ⟨a, s2⟩ = .error .notOwned
    ∧ GlobalAllocator.owns_impl st ⟨a, s1⟩ = true := by
  refine ⟨?_, ?_, ?_⟩
  · simp [GlobalAllocator.owns_impl, hnot]
  · simp [GlobalAllocator.deallocate_locked, hnot]
  · simp [GlobalAllocator.owns_impl, hlive]

/-- C10 witness: with the registry holding only the block at address 100 of
size 16, the probe of address 100 and size 8 is not owned, its deallocate
signals NotOwned, and the 16-byte block stays owned. -/
theorem c10_global_block_identity_both_fields_witness :
    GlobalAllocator.owns_impl [⟨100, 16⟩] ⟨100, 8⟩ = false
    ∧ GlobalAllocator.deallocate_locked [⟨100, 16⟩] ⟨100, 8⟩
      = .error .notOwned
    ∧ GlobalAllocator.owns_impl [⟨100, 16⟩] ⟨100, 16⟩ = true :=
  c10_global_block_identity_both_fields [⟨100, 16⟩] 100 16 8
    (by decide) (by decide) (by decide)

end PolyAlloc
